import Mathlib

/-!
Shallow embedding of the enumeration-binding subsystem of flapigen-rs
(`macroslib/src/java_jni/fenum.rs`): Java artifact emission, native glue
emission, callback conversion emission, and the registration orchestrator
`generate_enum`, together with the pieces of shared build state they touch.

Collaborators that live outside the embedded file (the file write cache,
the type-conversion map operations, documentation-comment translation)
are modelled from the specification; each such definition carries a doc
comment starting with "Modelled from the spec".
-/

deriving instance DecidableEq for Except

/-- Numeric value of Rust's `i32::max_value()`, the cardinality guard bound. -/
def I32_MAX : Nat := 2147483647

def C_LIKE_ENUM_TRAIT : String := "SwigForeignCLikeEnum"

/-- Modelled from the spec: the parametrized code-template marker for the source variable. -/
def FROM_VAR_TEMPLATE : String := "\x7bfrom_var\x7d"

/-- Modelled from the spec: the parametrized code-template marker for the target variable. -/
def TO_VAR_TEMPLATE : String := "\x7bto_var\x7d"

/-- The cardinality diagnostic text from `generate_enum`. -/
def CARD_ERR_MSG : String := "Too many items in enum"

/-- One item of a foreign enum: foreign-visible identifier, native identifier,
documentation lines (from `types::ForeignEnumItem`). -/
structure ForeignEnumItem where
  name : String
  rust_name : String
  doc_comments : List String
deriving DecidableEq

/-- The enumeration definition (from `types::ForeignEnumInfo`), with source
location data flattened to numeric identifiers. -/
structure ForeignEnumInfo where
  src_id : Nat
  name : String
  items : List ForeignEnumItem
  doc_comments : List String
  span : Nat
deriving DecidableEq

/-- Modelled from the spec: documentation-comment translation is an external
collaborator (out of scope for the subsystem); modelled as one foreign
comment line per documentation line. -/
def doc_comments_to_java_comments (doc_comments : List String) (_top_level : Bool) : String :=
  String.join (doc_comments.map (fun l => "// " ++ l ++ "\n"))

/-- Header written by the first `writeln!` of `generate_java_code_for_enum`. -/
def javaHeader (package_name : String) (fenum : ForeignEnumInfo) : String :=
  "// Automatically generated by rust_swig\npackage " ++ package_name ++ ";\n\n" ++
    doc_comments_to_java_comments fenum.doc_comments true ++ "\npublic enum " ++
    fenum.name ++ " \x7b\n"

/-- Per-item documentation handling in the constant-emission loop of
`generate_java_code_for_enum` (newline-terminate nonempty docs and indent). -/
def itemDocPart (item : ForeignEnumItem) : String :=
  let d := doc_comments_to_java_comments item.doc_comments false
  if d.isEmpty then d
  else (if d.endsWith "\n" then d else d ++ "\n") ++ "    "

/-- Index-carrying enumeration of a list, the embedding of `iter().enumerate()`. -/
def enumFrom : Nat → List α → List (Nat × α)
  | _, [] => []
  | k, a :: l => (k, a) :: enumFrom (k + 1) l

/-- The enum-constant lines written by the first loop of
`generate_java_code_for_enum`: `    {docs}{item_name}({index}){separator}` with
a comma after every constant but the last, which gets a semicolon. -/
def javaConstLines (fenum : ForeignEnumInfo) : List String :=
  (enumFrom 0 fenum.items).map (fun p =>
    "    " ++ itemDocPart p.2 ++ p.2.name ++ "(" ++ toString p.1 ++ ")" ++
      (if p.1 = fenum.items.length - 1 then ";" else ",") ++ "\n")

/-- The fixed middle block of the Java artifact (value field, constructor,
accessor, and the head of `fromInt`). -/
def javaMiddle (fenum : ForeignEnumInfo) : String :=
  "\n    private final int value;\n    " ++ fenum.name ++
    "(int value) \x7b\n        this.value = value;\n    \x7d\n    public final int getValue() \x7b return value; \x7d\n    /*package*/ static " ++
    fenum.name ++ " fromInt(int x) \x7b\n        switch (x) \x7b"

/-- The `case {index}: return {item_name};` fragments written by the second
loop of `generate_java_code_for_enum`. -/
def javaCaseFrags (fenum : ForeignEnumInfo) : List String :=
  (enumFrom 0 fenum.items).map (fun p =>
    "\n            case " ++ toString p.1 ++ ": return " ++ p.2.name ++ ";")

/-- The closing block of the Java artifact with the `default:` arm of `fromInt`. -/
def javaFooter (fenum : ForeignEnumInfo) : String :=
  "\n            default: throw new Error(\"Invalid value for enum " ++ fenum.name ++
    ": \" + x);\n        \x7d\n    \x7d\n\x7d\n"

/-- Full content of the emitted Java artifact, the concatenation of everything
`generate_java_code_for_enum` writes into the file cache buffer. -/
def javaEnumFileContent (package_name : String) (fenum : ForeignEnumInfo) : String :=
  javaHeader package_name fenum ++ String.join (javaConstLines fenum) ++ javaMiddle fenum ++
    String.join (javaCaseFrags fenum) ++ javaFooter fenum

/-- The filesystem, as a stack of (path, content) pairs; lookups see the newest write. -/
abbrev FS := List (String × String)

def fsLookup (fs : FS) (path : String) : Option String :=
  (fs.find? (fun e => e.1 == path)).map (fun e => e.2)

def fsStore (fs : FS) (path content : String) : FS :=
  (path, content) :: fs

def WRITE_IO_ERR : String := "I/O write error"

/-- Modelled from the spec: `FileWriteCache.update_file_if_necessary` writes
through only when the new content differs from what is already stored
(content-equality caching, to avoid perturbing timestamps); a real write can
fail, modelled by the `writeOk` oracle. Returns the new filesystem and
whether a changed write happened. -/
def update_file_if_necessary (fs : FS) (path content : String) (writeOk : Bool) :
    Except String (FS × Bool) :=
  if fsLookup fs path = some content then Except.ok (fs, false)
  else if writeOk then Except.ok (fsStore fs path content, true)
  else Except.error WRITE_IO_ERR

/-- Modelled from the spec: the write failure is propagated wrapped with the
artifact path. -/
def map_write_err (path err : String) : String :=
  "failed to write " ++ path ++ ": " ++ err

/-- Path of the emitted artifact: `output_dir.join(format!("{}.java", name))`. -/
def javaFilePath (output_dir : String) (enum_name : String) : String :=
  output_dir ++ "/" ++ enum_name ++ ".java"

/-- Embedding of `generate_java_code_for_enum`: build the artifact content and
push it through the write cache, wrapping a write failure with the path. -/
def generate_java_code_for_enum (fs : FS) (output_dir package_name : String)
    (fenum : ForeignEnumInfo) (writeOk : Bool) : Except String (FS × Bool) :=
  match update_file_if_necessary fs (javaFilePath output_dir fenum.name)
      (javaEnumFileContent package_name fenum) writeOk with
  | Except.ok r => Except.ok r
  | Except.error e => Except.error (map_write_err (javaFilePath output_dir fenum.name) e)

/-- Structured form of the `impl SwigForeignCLikeEnum` token stream pushed by
`generate_rust_code_for_enum`: the two match-arm tables of `as_jint` and
`from_jint`. -/
structure RustEnumGlue where
  trait_name : String
  enum_name : String
  armsToJint : List (String × Nat)
  armsFromJint : List (Nat × String)
deriving DecidableEq

/-- The arm tables built by the loop in `generate_rust_code_for_enum`:
`#item_name => #idx` and `#idx => #item_name` for each enumerated item. -/
def rust_glue (fenum : ForeignEnumInfo) : RustEnumGlue :=
  { trait_name := C_LIKE_ENUM_TRAIT
    enum_name := fenum.name
    armsToJint := (enumFrom 0 fenum.items).map (fun p => (p.2.rust_name, p.1))
    armsFromJint := (enumFrom 0 fenum.items).map (fun p => (p.1, p.2.rust_name)) }

/-- Evaluation of an integer-keyed match: the first arm whose literal pattern
equals the scrutinee fires. -/
def intDispatch (arms : List (Nat × String)) (x : Int) : Option String :=
  (arms.find? (fun a => decide ((a.1 : Int) = x))).map (fun a => a.2)

/-- Evaluation of the emitted `as_jint`: match the variant against the arm table. -/
def as_jint (g : RustEnumGlue) (v : String) : Option Int :=
  (g.armsToJint.find? (fun a => a.1 == v)).map (fun a => ((a.2 : Nat) : Int))

/-- Evaluation of the emitted `from_jint`: dispatch on the ordinal arms, with
the fallback arm's `panic!(concat!("{} not expected for ", stringify!(#name)), x)`
message as the error. -/
def from_jint (g : RustEnumGlue) (x : Int) : Except String String :=
  match intDispatch g.armsFromJint x with
  | some n => Except.ok n
  | none => Except.error (toString x ++ " not expected for " ++ g.enum_name)

/-- The `case {i}` table of the emitted Java `fromInt`, read structurally. -/
def javaFromIntCases (fenum : ForeignEnumInfo) : List (Nat × String) :=
  (enumFrom 0 fenum.items).map (fun p => (p.1, p.2.name))

/-- Evaluation of the emitted Java `fromInt` switch: the matching case returns
its constant, the `default:` arm throws naming the enum and the value. -/
def javaFromIntSem (fenum : ForeignEnumInfo) (x : Int) : Except String String :=
  match intDispatch (javaFromIntCases fenum) x with
  | some n => Except.ok n
  | none => Except.error ("Invalid value for enum " ++ fenum.name ++ ": " ++ toString x)

/-- A native (Rust) type node of the conversion graph, with the traits the
allocation request tagged it with. -/
structure RustTypeNode where
  name : String
  traits : List String
deriving DecidableEq

/-- A foreign type node (`ForeignTypeS`) with its two intermediate-routed
conversion rules flattened to the code templates and node indices they carry. -/
structure ForeignTypeNode where
  name : String
  rust_ty : Nat
  intermediate_ty : Nat
  into_from_rust_code : String
  from_into_rust_code : String
deriving DecidableEq

/-- A conversion-rule edge added with `add_conversation_rule`. -/
structure ConvEdge where
  from_ty : Nat
  to_ty : Nat
  conv_code : String
deriving DecidableEq

/-- The shared type-conversion map: native type nodes, foreign type nodes,
conversion edges, and the exported-enum registry. -/
structure ConvMap where
  rustTypes : List RustTypeNode
  foreignTypes : List ForeignTypeNode
  convEdges : List ConvEdge
  exportedEnums : List String
deriving DecidableEq

structure JavaConfig where
  output_dir : String
  package_name : String
deriving DecidableEq

/-- Structured form of the callback-conversion token stream: the JNI class name
and the `#rust_name => swig_c_str!(stringify!(#java_item))` arm table. -/
structure CallbackConv where
  enum_class_name : String
  arms : List (String × String)
deriving DecidableEq

/-- One fragment pushed onto `ctx.rust_code`. -/
inductive RustFragment where
  | enumGlue (g : RustEnumGlue)
  | callbackConv (c : CallbackConv)
deriving DecidableEq

/-- The build context threaded through generation: conversion map,
configuration, and the buffer of generated native source fragments. -/
structure JavaContext where
  convMap : ConvMap
  cfg : JavaConfig
  rustCode : List RustFragment
deriving DecidableEq

/-- A build-time diagnostic (`DiagnosticError`): source id, span, message. -/
structure DiagnosticError where
  src_id : Nat
  span : Nat
  msg : String
deriving DecidableEq

/-- Generation outcome errors: an ordinary diagnostic, or a native panic such
as a failed `assert!` (which aborts the build process rather than returning). -/
inductive GenError where
  | diag (d : DiagnosticError)
  | panicErr (msg : String)
deriving DecidableEq

/-- An outcome is the cardinality diagnostic when it is a build diagnostic
carrying the "Too many items in enum" message. -/
def isCardDiag (o : Option GenError) : Prop :=
  ∃ d, o = some (GenError.diag d) ∧ d.msg = CARD_ERR_MSG

/-- Modelled from the spec: orchestrator step (2), "allocate/identify the
native type node, tagging it with the ordinal-convertible capability" —
find-or-allocate semantics on the conversion map. -/
def find_or_alloc_rust_type_that_implements (m : ConvMap) (ty_name : String)
    (traits : List String) : Nat × ConvMap :=
  match m.rustTypes.findIdx? (fun t => t.name == ty_name) with
  | some i => (i, m)
  | none => (m.rustTypes.length, { m with rustTypes := m.rustTypes ++ [⟨ty_name, traits⟩] })

/-- Modelled from the spec: find-or-allocate of an untagged native type node. -/
def find_or_alloc_rust_type_no_src_id (m : ConvMap) (ty_name : String) : Nat × ConvMap :=
  find_or_alloc_rust_type_that_implements m ty_name []

/-- Modelled from the spec: orchestrator step (4), "allocate (or reuse) the
canonical 32-bit intermediate type node". -/
def ty_to_rust_type (m : ConvMap) (ty_name : String) : Nat × ConvMap :=
  find_or_alloc_rust_type_that_implements m ty_name []

/-- Modelled from the spec: registration of the foreign type node; the policy
on duplicate names is left open by the spec and modelled as a plain append. -/
def alloc_foreign_type (m : ConvMap) (ft : ForeignTypeNode) : ConvMap :=
  { m with foreignTypes := m.foreignTypes ++ [ft] }

/-- Modelled from the spec: append to the exported-enum registry. -/
def register_exported_enum (m : ConvMap) (enum_name : String) : ConvMap :=
  { m with exportedEnums := m.exportedEnums ++ [enum_name] }

/-- Modelled from the spec: add one conversion-rule edge to the graph. -/
def add_conversation_rule (m : ConvMap) (fromTy toTy : Nat) (code : String) : ConvMap :=
  { m with convEdges := m.convEdges ++ [⟨fromTy, toTy, code⟩] }

/-- Modelled from the spec: fully qualified foreign class name `pkg.Name`. -/
def java_class_full_name (package_name class_name : String) : String :=
  package_name ++ "." ++ class_name

/-- Modelled from the spec: JNI spelling of a class name (dots become slashes). -/
def java_class_name_to_jni (s : String) : String :=
  s.map (fun c => if c = '.' then '/' else c)

/-- The `#rust_name => swig_c_str!(stringify!(#java_item))` arm table built by
`add_conversation_from_enum_to_jobject_for_callbacks`. -/
def arms_match_fields_names (fenum : ForeignEnumInfo) : List (String × String) :=
  fenum.items.map (fun item => (item.rust_name, item.name))

/-- Embedding of `add_conversation_from_enum_to_jobject_for_callbacks`: push the
callback conversion fragment, find-or-allocate the `jobject` node, and add the
enum-to-jobject edge. -/
def add_conversation_from_enum_to_jobject_for_callbacks (ctx : JavaContext)
    (fenum : ForeignEnumInfo) (fenum_rty : Nat) : JavaContext :=
  let cls := java_class_name_to_jni (java_class_full_name ctx.cfg.package_name fenum.name)
  let ctx1 := { ctx with
    rustCode := ctx.rustCode ++
      [RustFragment.callbackConv ⟨cls, arms_match_fields_names fenum⟩] }
  let pr := find_or_alloc_rust_type_no_src_id ctx1.convMap "jobject"
  let m2 := add_conversation_rule pr.2 fenum_rty pr.1
    ("let mut " ++ TO_VAR_TEMPLATE ++ ": jobject = <jobject>::swig_from(" ++
      FROM_VAR_TEMPLATE ++ ", env);")
  { ctx1 with convMap := m2 }

/-- Embedding of `generate_rust_code_for_enum`: the leading
`assert!((items.len() as u64) <= u64::from(i32::max_value() as u32))` is
modelled as a `panicErr` on violation; otherwise the glue impl is pushed. -/
def generate_rust_code_for_enum (ctx : JavaContext) (fenum : ForeignEnumInfo) :
    Except GenError JavaContext :=
  if fenum.items.length ≤ I32_MAX then
    Except.ok { ctx with rustCode := ctx.rustCode ++ [RustFragment.enumGlue (rust_glue fenum)] }
  else Except.error (GenError.panicErr "items.len() <= i32::max_value()")

/-- Embedding of the orchestrator `generate_enum`: cardinality guard, native
type node allocation, Java artifact emission, native glue emission, foreign
type registration, exported-enum registration, callback conversion. The
returned triple is (error if any, final context, final filesystem); the
context and filesystem model the `&mut` state at the point of return. -/
def generate_enum (ctx : JavaContext) (fs : FS) (fenum : ForeignEnumInfo) (writeOk : Bool) :
    Option GenError × JavaContext × FS :=
  if I32_MAX ≤ fenum.items.length then
    (some (GenError.diag ⟨fenum.src_id, fenum.span, CARD_ERR_MSG⟩), ctx, fs)
  else
    let pr := find_or_alloc_rust_type_that_implements ctx.convMap fenum.name [C_LIKE_ENUM_TRAIT]
    let ctx1 := { ctx with convMap := pr.2 }
    match generate_java_code_for_enum fs ctx.cfg.output_dir ctx.cfg.package_name fenum writeOk with
    | Except.error e => (some (GenError.diag ⟨fenum.src_id, fenum.span, e⟩), ctx1, fs)
    | Except.ok r =>
      match generate_rust_code_for_enum ctx1 fenum with
      | Except.error ge => (some ge, ctx1, r.1)
      | Except.ok ctx2 =>
        let pj := ty_to_rust_type ctx2.convMap "jint"
        let ctx3 := { ctx2 with convMap := pj.2 }
        let ftype : ForeignTypeNode :=
          { name := fenum.name
            rust_ty := pr.1
            intermediate_ty := pj.1
            into_from_rust_code := "        " ++ fenum.name ++ " " ++ TO_VAR_TEMPLATE ++
              " = " ++ fenum.name ++ ".fromInt(" ++ FROM_VAR_TEMPLATE ++ ");"
            from_into_rust_code := "        int " ++ TO_VAR_TEMPLATE ++ " = " ++
              FROM_VAR_TEMPLATE ++ ".getValue();" }
        let ctx4 := { ctx3 with convMap := alloc_foreign_type ctx3.convMap ftype }
        let ctx5 := { ctx4 with convMap := register_exported_enum ctx4.convMap fenum.name }
        (none, add_conversation_from_enum_to_jobject_for_callbacks ctx5 fenum pr.1, r.1)

/-- An empty build context with the scenario configuration of the spec. -/
def ctx0 : JavaContext :=
  { convMap := { rustTypes := [], foreignTypes := [], convEdges := [], exportedEnums := [] }
    cfg := { output_dir := "out", package_name := "com.example" }
    rustCode := [] }

/-- The spec's concrete scenario enumeration: `Color` with `Red`, `Green`, `Blue`. -/
def colorEnum : ForeignEnumInfo :=
  { src_id := 0
    name := "Color"
    items := [⟨"Red", "Red", []⟩, ⟨"Green", "Green", []⟩, ⟨"Blue", "Blue", []⟩]
    doc_comments := []
    span := 0 }

/-- An enumeration with exactly `i32::max_value()` items, the boundary case of
the cardinality guard. -/
def bigFenum : ForeignEnumInfo :=
  { src_id := 0
    name := "Big"
    items := List.replicate I32_MAX ⟨"A", "A", []⟩
    doc_comments := []
    span := 0 }

example : (javaConstLines colorEnum).get? 1 = some "    Green(1),\n" := by decide
example : (javaConstLines colorEnum).get? 2 = some "    Blue(2);\n" := by decide
example : javaFromIntSem colorEnum 1 = Except.ok "Green" := by decide
example : javaFromIntSem colorEnum 3 =
    Except.error "Invalid value for enum Color: 3" := by decide
example : from_jint (rust_glue colorEnum) 2 = Except.ok "Blue" := by decide
example : from_jint (rust_glue colorEnum) 3 =
    Except.error "3 not expected for Color" := by decide
example : as_jint (rust_glue colorEnum) "Blue" = some 2 := by decide

/-! ### Helper lemmas about the enumerate loop embedding -/

theorem enumFrom_length (k : Nat) (l : List α) : (enumFrom k l).length = l.length := by
  induction l generalizing k with
  | nil => rfl
  | cons a l ih => simp [enumFrom, ih]

theorem enumFrom_get? (k : Nat) (l : List α) (i : Nat) :
    (enumFrom k l).get? i = (l.get? i).map (fun a => (k + i, a)) := by
  induction l generalizing k i with
  | nil => rfl
  | cons a l ih =>
    cases i with
    | zero => rfl
    | succ j =>
      have e : k + 1 + j = k + (j + 1) := by omega
      show (enumFrom (k + 1) l).get? j = (l.get? j).map (fun a => (k + (j + 1), a))
      rw [ih (k + 1) j, e]

theorem findArm_hit (g : α → String) :
    ∀ (l : List α) (k j : Nat) (a : α), l.get? j = some a →
      ((enumFrom k l).map (fun p => (p.1, g p.2))).find?
          (fun q => decide ((q.1 : Int) = ((k + j : Nat) : Int))) = some (k + j, g a)
  | [], _, j, a, h => by simp at h
  | b :: l, k, 0, a, h => by
    obtain rfl : b = a := by simpa using h
    simp only [enumFrom, List.map_cons]
    rw [List.find?_cons_of_pos]
    · simp
    · simp
  | b :: l, k, j + 1, a, h => by
    have h' : l.get? j = some a := by simpa using h
    have ih := findArm_hit g l (k + 1) j a h'
    have e : k + 1 + j = k + (j + 1) := by omega
    rw [e] at ih
    simp only [enumFrom, List.map_cons]
    rw [List.find?_cons_of_neg]
    · exact ih
    · simp only [decide_eq_true_eq]
      omega

theorem findArm_miss (g : α → String) (x : Int) :
    ∀ (l : List α) (k : Nat), (x < (k : Int) ∨ ((k + l.length : Nat) : Int) ≤ x) →
      ((enumFrom k l).map (fun p => (p.1, g p.2))).find?
          (fun q => decide ((q.1 : Int) = x)) = none
  | [], k, _ => by simp [enumFrom]
  | b :: l, k, hx => by
    have hx' : x < (k : Int) ∨ (k : Int) + (l.length : Int) + 1 ≤ x := by
      rcases hx with hx | hx
      · exact Or.inl hx
      · right; push_cast [List.length_cons] at hx; omega
    simp only [enumFrom, List.map_cons]
    rw [List.find?_cons_of_neg]
    · refine findArm_miss g x l (k + 1) ?_
      rcases hx' with h | h
      · left; omega
      · right; push_cast; omega
    · simp only [decide_eq_true_eq]
      rcases hx' with h | h <;> omega

theorem intDispatch_hit (g : α → String) (l : List α) (j : Nat) (a : α)
    (h : l.get? j = some a) :
    intDispatch ((enumFrom 0 l).map (fun p => (p.1, g p.2))) ((j : Nat) : Int) = some (g a) := by
  have := findArm_hit g l 0 j a h
  rw [Nat.zero_add] at this
  unfold intDispatch
  rw [this]
  rfl

theorem intDispatch_miss (g : α → String) (l : List α) (x : Int)
    (hx : x < 0 ∨ ((l.length : Nat) : Int) ≤ x) :
    intDispatch ((enumFrom 0 l).map (fun p => (p.1, g p.2))) x = none := by
  have := findArm_miss g x l 0 (by simpa using hx)
  unfold intDispatch
  rw [this]
  rfl

theorem findToArm (f : α → String) (v : String) :
    ∀ (l : List α) (k : Nat), v ∈ l.map f →
      ∃ j a, l.get? j = some a ∧ f a = v ∧
        ((enumFrom k l).map (fun p => (f p.2, p.1))).find? (fun q => q.1 == v) =
          some (v, k + j)
  | [], _, h => by simp at h
  | b :: l, k, h => by
    by_cases hb : f b = v
    · refine ⟨0, b, by simp, hb, ?_⟩
      simp only [enumFrom, List.map_cons]
      rw [List.find?_cons_of_pos]
      · simp [hb]
      · simp [hb]
    · have hv : v ∈ l.map f := by
        rcases List.mem_map.mp h with ⟨c, hc, hcv⟩
        rcases List.mem_cons.mp hc with rfl | hc2
        · exact absurd hcv hb
        · exact List.mem_map.mpr ⟨c, hc2, hcv⟩
      obtain ⟨j, a, hja, hfa, hfind⟩ := findToArm f v l (k + 1) hv
      refine ⟨j + 1, a, by simpa using hja, hfa, ?_⟩
      simp only [enumFrom, List.map_cons]
      rw [List.find?_cons_of_neg]
      · have e : k + (j + 1) = k + 1 + j := by omega
        rw [e]
        exact hfind
      · simp [hb]

/-! ### Helper lemmas about the filesystem, the write cache and the orchestrator paths -/

theorem fsLookup_fsStore (fs : FS) (path content : String) :
    fsLookup (fsStore fs path content) path = some content := by
  simp [fsLookup, fsStore]

theorem update_file_cases (fs : FS) (path content : String) (w : Bool) :
    (fsLookup fs path = some content ∧
        update_file_if_necessary fs path content w = Except.ok (fs, false)) ∨
    (fsLookup fs path ≠ some content ∧ w = true ∧
        update_file_if_necessary fs path content w =
          Except.ok (fsStore fs path content, true)) ∨
    (fsLookup fs path ≠ some content ∧ w = false ∧
        update_file_if_necessary fs path content w = Except.error WRITE_IO_ERR) := by
  by_cases hc : fsLookup fs path = some content
  · exact Or.inl ⟨hc, by simp [update_file_if_necessary, hc]⟩
  · cases w with
    | false => exact Or.inr (Or.inr ⟨hc, rfl, by simp [update_file_if_necessary, hc]⟩)
    | true => exact Or.inr (Or.inl ⟨hc, rfl, by simp [update_file_if_necessary, hc]⟩)

theorem generate_java_ok_lookup {fs : FS} {d pkg : String} {fenum : ForeignEnumInfo}
    {w : Bool} {fs1 : FS} {ch : Bool}
    (h : generate_java_code_for_enum fs d pkg fenum w = Except.ok (fs1, ch)) :
    fsLookup fs1 (javaFilePath d fenum.name) = some (javaEnumFileContent pkg fenum) := by
  rcases update_file_cases fs (javaFilePath d fenum.name) (javaEnumFileContent pkg fenum) w with
    ⟨hc, hu⟩ | ⟨hc, hw, hu⟩ | ⟨hc, hw, hu⟩
  · unfold generate_java_code_for_enum at h
    simp only [hu] at h
    cases h
    exact hc
  · unfold generate_java_code_for_enum at h
    simp only [hu] at h
    cases h
    exact fsLookup_fsStore fs (javaFilePath d fenum.name) (javaEnumFileContent pkg fenum)
  · unfold generate_java_code_for_enum at h
    simp only [hu] at h
    exact Except.noConfusion h

theorem generate_java_error_msg {fs : FS} {d pkg : String} {fenum : ForeignEnumInfo}
    {w : Bool} {e : String}
    (h : generate_java_code_for_enum fs d pkg fenum w = Except.error e) :
    e = map_write_err (javaFilePath d fenum.name) WRITE_IO_ERR ∧ w = false ∧
      fsLookup fs (javaFilePath d fenum.name) ≠ some (javaEnumFileContent pkg fenum) := by
  rcases update_file_cases fs (javaFilePath d fenum.name) (javaEnumFileContent pkg fenum) w with
    ⟨hc, hu⟩ | ⟨hc, hw, hu⟩ | ⟨hc, hw, hu⟩
  · unfold generate_java_code_for_enum at h
    simp only [hu] at h
    exact Except.noConfusion h
  · unfold generate_java_code_for_enum at h
    simp only [hu] at h
    exact Except.noConfusion h
  · unfold generate_java_code_for_enum at h
    simp only [hu] at h
    cases h
    exact ⟨rfl, hw, hc⟩

theorem generate_java_true_ok (fs : FS) (d pkg : String) (fenum : ForeignEnumInfo) :
    ∃ fs1 ch, generate_java_code_for_enum fs d pkg fenum true = Except.ok (fs1, ch) := by
  rcases update_file_cases fs (javaFilePath d fenum.name) (javaEnumFileContent pkg fenum) true with
    ⟨hc, hu⟩ | ⟨hc, hw, hu⟩ | ⟨hc, hw, hu⟩
  · exact ⟨fs, false, by unfold generate_java_code_for_enum; rw [hu]⟩
  · exact ⟨fsStore fs (javaFilePath d fenum.name) (javaEnumFileContent pkg fenum), true, by
      unfold generate_java_code_for_enum; rw [hu]⟩
  · exact absurd hw (by simp)

theorem map_write_err_ne_card (path err : String) :
    map_write_err path err ≠ CARD_ERR_MSG := by
  intro h
  have hd := congrArg String.data h
  simp only [map_write_err, CARD_ERR_MSG, String.data_append] at hd
  simp only [List.cons_append] at hd
  injection hd with h1 _
  exact absurd h1 (by decide)

theorem find_or_alloc_preserves (m : ConvMap) (n : String) (tr : List String) :
    ((find_or_alloc_rust_type_that_implements m n tr).2.foreignTypes = m.foreignTypes) ∧
    ((find_or_alloc_rust_type_that_implements m n tr).2.convEdges = m.convEdges) ∧
    ((find_or_alloc_rust_type_that_implements m n tr).2.exportedEnums = m.exportedEnums) := by
  cases hh : m.rustTypes.findIdx? (fun t => t.name == n) <;>
    simp [find_or_alloc_rust_type_that_implements, hh]

theorem generate_enum_write_fail (ctx : JavaContext) (fs : FS) (fenum : ForeignEnumInfo)
    (hN : fenum.items.length < I32_MAX)
    (hmiss : fsLookup fs (javaFilePath ctx.cfg.output_dir fenum.name) ≠
      some (javaEnumFileContent ctx.cfg.package_name fenum)) :
    generate_enum ctx fs fenum false =
      (some (GenError.diag ⟨fenum.src_id, fenum.span,
          map_write_err (javaFilePath ctx.cfg.output_dir fenum.name) WRITE_IO_ERR⟩),
        { ctx with convMap := (find_or_alloc_rust_type_that_implements ctx.convMap
            fenum.name [C_LIKE_ENUM_TRAIT]).2 },
        fs) := by
  have hu : update_file_if_necessary fs (javaFilePath ctx.cfg.output_dir fenum.name)
      (javaEnumFileContent ctx.cfg.package_name fenum) false = Except.error WRITE_IO_ERR := by
    unfold update_file_if_necessary
    rw [if_neg hmiss]
    rfl
  have hj : generate_java_code_for_enum fs ctx.cfg.output_dir ctx.cfg.package_name fenum false =
      Except.error (map_write_err (javaFilePath ctx.cfg.output_dir fenum.name) WRITE_IO_ERR) := by
    unfold generate_java_code_for_enum
    rw [hu]
  unfold generate_enum
  rw [if_neg (by omega)]
  simp only [hj]

theorem generate_enum_low_first (ctx : JavaContext) (fs : FS) (fenum : ForeignEnumInfo)
    (w : Bool) (hN : fenum.items.length < I32_MAX) :
    (generate_enum ctx fs fenum w).1 = none ∨
      (generate_enum ctx fs fenum w).1 = some (GenError.diag
        ⟨fenum.src_id, fenum.span,
          map_write_err (javaFilePath ctx.cfg.output_dir fenum.name) WRITE_IO_ERR⟩) := by
  cases hj : generate_java_code_for_enum fs ctx.cfg.output_dir ctx.cfg.package_name fenum w with
  | error e =>
    right
    obtain ⟨he, hw, hm⟩ := generate_java_error_msg hj
    subst he
    unfold generate_enum
    rw [if_neg (by omega)]
    simp only [hj]
  | ok r =>
    left
    unfold generate_enum
    rw [if_neg (by omega)]
    obtain ⟨c2, hr⟩ : ∃ c2, generate_rust_code_for_enum
        { ctx with convMap := (find_or_alloc_rust_type_that_implements ctx.convMap
            fenum.name [C_LIKE_ENUM_TRAIT]).2 } fenum = Except.ok c2 := by
      unfold generate_rust_code_for_enum
      rw [if_pos (by omega)]
      exact ⟨_, rfl⟩
    simp only [hj, hr]

theorem generate_enum_true_none (ctx : JavaContext) (fs : FS) (fenum : ForeignEnumInfo)
    (hN : fenum.items.length < I32_MAX) :
    (generate_enum ctx fs fenum true).1 = none := by
  obtain ⟨fs1, ch, hj⟩ := generate_java_true_ok fs ctx.cfg.output_dir ctx.cfg.package_name fenum
  unfold generate_enum
  rw [if_neg (by omega)]
  obtain ⟨c2, hr⟩ : ∃ c2, generate_rust_code_for_enum
      { ctx with convMap := (find_or_alloc_rust_type_that_implements ctx.convMap
          fenum.name [C_LIKE_ENUM_TRAIT]).2 } fenum = Except.ok c2 := by
    unfold generate_rust_code_for_enum
    rw [if_pos (by omega)]
    exact ⟨_, rfl⟩
  simp only [hj, hr]

theorem generate_enum_card_iff (ctx : JavaContext) (fs : FS) (fenum : ForeignEnumInfo)
    (w : Bool) :
    isCardDiag (generate_enum ctx fs fenum w).1 ↔ I32_MAX ≤ fenum.items.length := by
  by_cases hN : I32_MAX ≤ fenum.items.length
  · refine ⟨fun _ => hN, fun _ => ?_⟩
    refine ⟨⟨fenum.src_id, fenum.span, CARD_ERR_MSG⟩, ?_, rfl⟩
    unfold generate_enum
    rw [if_pos hN]
  · constructor
    · rintro ⟨d, hd, hmsg⟩
      rcases generate_enum_low_first ctx fs fenum w (by omega) with h0 | h0
      · rw [h0] at hd
        exact Option.noConfusion hd
      · rw [h0] at hd
        injection hd with h1
        injection h1 with h2
        subst h2
        exact absurd hmsg (map_write_err_ne_card _ _)
    · intro hc
      exact absurd hc hN

/-! ### Claim theorems -/

/-- C1 (amended): `generate_enum` fails with the cardinality diagnostic
"Too many items in enum", reported at the enumeration's source location,
if and only if the item count N satisfies N ≥ i32::MAX = 2^31 − 1 (not 2^31
as the claim states); for every N < 2^31 − 1 the guard passes and generation
proceeds (with a succeeding artifact write the operation returns no error). -/
theorem c1_cardinality_guard (ctx : JavaContext) (fs : FS) (fenum : ForeignEnumInfo)
    (w : Bool) :
    (isCardDiag (generate_enum ctx fs fenum w).1 ↔ I32_MAX ≤ fenum.items.length) ∧
    (I32_MAX ≤ fenum.items.length →
      (generate_enum ctx fs fenum w).1 =
        some (GenError.diag ⟨fenum.src_id, fenum.span, CARD_ERR_MSG⟩)) ∧
    (fenum.items.length < I32_MAX → w = true → (generate_enum ctx fs fenum w).1 = none) := by
  refine ⟨generate_enum_card_iff ctx fs fenum w, fun h => ?_, fun hlt hw => ?_⟩
  · unfold generate_enum
    rw [if_pos h]
  · subst hw
    exact generate_enum_true_none ctx fs fenum hlt

/-- C1 witness: at the boundary enumeration with exactly i32::MAX items the
guard hypothesis holds and the cardinality diagnostic is produced at its
source location; at the three-item Color enumeration the guard passes and
generation succeeds. -/
theorem c1_cardinality_guard_witness :
    (I32_MAX ≤ bigFenum.items.length ∧
      (generate_enum ctx0 [] bigFenum true).1 =
        some (GenError.diag ⟨bigFenum.src_id, bigFenum.span, CARD_ERR_MSG⟩)) ∧
    (colorEnum.items.length < I32_MAX ∧ (generate_enum ctx0 [] colorEnum true).1 = none) := by
  have hlen : I32_MAX ≤ bigFenum.items.length := by simp [bigFenum]
  have hc : colorEnum.items.length < I32_MAX := by decide
  exact ⟨⟨hlen, (c1_cardinality_guard ctx0 [] bigFenum true).2.1 hlen⟩,
    ⟨hc, (c1_cardinality_guard ctx0 [] colorEnum true).2.2 hc rfl⟩⟩

/-- C1 counterexample: N = i32::MAX = 2147483647 satisfies N < 2^31, so the
claim as stated says the guard passes for it, yet `generate_enum` raises the
cardinality diagnostic at that count. -/
theorem c1_counterexample :
    bigFenum.items.length < 2 ^ 31 ∧
    isCardDiag (generate_enum ctx0 [] bigFenum true).1 := by
  constructor
  · have h : bigFenum.items.length = I32_MAX := by simp [bigFenum]
    rw [h]
    norm_num [I32_MAX]
  · exact (generate_enum_card_iff ctx0 [] bigFenum true).mpr (by simp [bigFenum])

/-- C8: when the item count reaches the cardinality limit, `generate_enum`
rejects the input before any file write and before any mutation of the
conversion graph or registries: the error return leaves the whole context
(graph, registries, native-code buffer) and the filesystem unchanged. -/
theorem c8_reject_unchanged (ctx : JavaContext) (fs : FS) (fenum : ForeignEnumInfo)
    (w : Bool) (h : I32_MAX ≤ fenum.items.length) :
    generate_enum ctx fs fenum w =
      (some (GenError.diag ⟨fenum.src_id, fenum.span, CARD_ERR_MSG⟩), ctx, fs) := by
  unfold generate_enum
  rw [if_pos h]

/-- C8 witness: the boundary enumeration is rejected with context and
filesystem returned untouched. -/
theorem c8_reject_unchanged_witness :
    I32_MAX ≤ bigFenum.items.length ∧
    generate_enum ctx0 [] bigFenum false =
      (some (GenError.diag ⟨bigFenum.src_id, bigFenum.span, CARD_ERR_MSG⟩), ctx0, []) := by
  have hlen : I32_MAX ≤ bigFenum.items.length := by simp [bigFenum]
  exact ⟨hlen, c8_reject_unchanged ctx0 [] bigFenum false hlen⟩

/-- C10: the assertion at the top of `generate_rust_code_for_enum` (modelled
as the `panicErr` outcome) can never fire when reached through
`generate_enum`: every outcome of the orchestrator is success or an ordinary
diagnostic, because the cardinality guard rejects every larger item count
before the glue emitter runs. -/
theorem c10_assert_unreachable (ctx : JavaContext) (fs : FS) (fenum : ForeignEnumInfo)
    (w : Bool) :
    (generate_enum ctx fs fenum w).1 = none ∨
      ∃ d, (generate_enum ctx fs fenum w).1 = some (GenError.diag d) := by
  by_cases hN : I32_MAX ≤ fenum.items.length
  · right
    refine ⟨⟨fenum.src_id, fenum.span, CARD_ERR_MSG⟩, ?_⟩
    unfold generate_enum
    rw [if_pos hN]
  · rcases generate_enum_low_first ctx fs fenum w (by omega) with h | h
    · exact Or.inl h
    · exact Or.inr ⟨_, h⟩

/-- C2 (amended): a failing Java artifact write makes `generate_enum` return
an error before any foreign-type registration: foreign type nodes, conversion
edges, the exported-enum registry, the native-code buffer and the filesystem
are unchanged — but the native type node allocated in step 2 is NOT rolled
back: the rust-type nodes are exactly those after the find-or-allocate of the
enumeration's native type. -/
theorem c2_write_failure_no_foreign_registration (ctx : JavaContext) (fs : FS)
    (fenum : ForeignEnumInfo)
    (hN : fenum.items.length < I32_MAX)
    (hmiss : fsLookup fs (javaFilePath ctx.cfg.output_dir fenum.name) ≠
      some (javaEnumFileContent ctx.cfg.package_name fenum)) :
    (generate_enum ctx fs fenum false).1.isSome = true ∧
    (generate_enum ctx fs fenum false).2.1.convMap.foreignTypes = ctx.convMap.foreignTypes ∧
    (generate_enum ctx fs fenum false).2.1.convMap.convEdges = ctx.convMap.convEdges ∧
    (generate_enum ctx fs fenum false).2.1.convMap.exportedEnums =
      ctx.convMap.exportedEnums ∧
    (generate_enum ctx fs fenum false).2.1.rustCode = ctx.rustCode ∧
    (generate_enum ctx fs fenum false).2.2 = fs ∧
    (generate_enum ctx fs fenum false).2.1.convMap.rustTypes =
      (find_or_alloc_rust_type_that_implements ctx.convMap fenum.name
        [C_LIKE_ENUM_TRAIT]).2.rustTypes := by
  rw [generate_enum_write_fail ctx fs fenum hN hmiss]
  obtain ⟨h1, h2, h3⟩ := find_or_alloc_preserves ctx.convMap fenum.name [C_LIKE_ENUM_TRAIT]
  exact ⟨rfl, h1, h2, h3, rfl, rfl, rfl⟩

/-- C2 witness: the Color enumeration with an empty filesystem and a failing
write satisfies the hypotheses; the error is returned with the filesystem
untouched. -/
theorem c2_write_failure_no_foreign_registration_witness :
    (colorEnum.items.length < I32_MAX ∧
      fsLookup [] (javaFilePath ctx0.cfg.output_dir colorEnum.name) ≠
        some (javaEnumFileContent ctx0.cfg.package_name colorEnum)) ∧
    ((generate_enum ctx0 [] colorEnum false).1.isSome = true ∧
      (generate_enum ctx0 [] colorEnum false).2.2 = ([] : FS)) := by
  have h1 : colorEnum.items.length < I32_MAX := by decide
  have h2 : fsLookup [] (javaFilePath ctx0.cfg.output_dir colorEnum.name) ≠
      some (javaEnumFileContent ctx0.cfg.package_name colorEnum) := by decide
  have hthm := c2_write_failure_no_foreign_registration ctx0 [] colorEnum h1 h2
  exact ⟨⟨h1, h2⟩, hthm.1, hthm.2.2.2.2.2.1⟩

/-- C2 counterexample: with an empty conversion map and a failing artifact
write, `generate_enum` returns an error and yet the conversion graph HAS been
mutated — the native type node for Color was allocated in step 2 and is not
rolled back — contradicting the claim that a failure of the Java artifact
write leaves no type node allocated in the graph. -/
theorem c2_counterexample :
    (generate_enum ctx0 [] colorEnum false).1.isSome = true ∧
    ctx0.convMap.rustTypes = [] ∧
    (generate_enum ctx0 [] colorEnum false).2.1.convMap.rustTypes =
      [({ name := "Color", traits := [C_LIKE_ENUM_TRAIT] } : RustTypeNode)] := by
  exact ⟨rfl, rfl, rfl⟩

/-- C9: generation is deterministic and content-idempotent through the write
cache: after a successful run of `generate_java_code_for_enum`, running it
again over the resulting filesystem with the same output directory, package
and unchanged definition finds byte-identical content already stored, so the
second run reports an unchanged, skipped write and leaves the filesystem
as it was — for any item count including zero. -/
theorem c9_idempotent (fs : FS) (d pkg : String) (fenum : ForeignEnumInfo)
    (fs1 : FS) (ch : Bool) (w2 : Bool)
    (h : generate_java_code_for_enum fs d pkg fenum true = Except.ok (fs1, ch)) :
    generate_java_code_for_enum fs1 d pkg fenum w2 = Except.ok (fs1, false) := by
  have hl := generate_java_ok_lookup h
  unfold generate_java_code_for_enum update_file_if_necessary
  rw [if_pos hl]

/-- C9 witness: writing the Color artifact into an empty filesystem and
re-running the emitter yields a cache-reported unchanged write. -/
theorem c9_idempotent_witness :
    generate_java_code_for_enum [] "out" "com.example" colorEnum true =
      Except.ok (fsStore [] (javaFilePath "out" "Color")
        (javaEnumFileContent "com.example" colorEnum), true) ∧
    generate_java_code_for_enum
        (fsStore [] (javaFilePath "out" "Color") (javaEnumFileContent "com.example" colorEnum))
        "out" "com.example" colorEnum false =
      Except.ok (fsStore [] (javaFilePath "out" "Color")
        (javaEnumFileContent "com.example" colorEnum), false) := by
  have h1 : generate_java_code_for_enum [] "out" "com.example" colorEnum true =
      Except.ok (fsStore [] (javaFilePath "out" "Color")
        (javaEnumFileContent "com.example" colorEnum), true) := by rfl
  exact ⟨h1, c9_idempotent [] "out" "com.example" colorEnum _ _ false h1⟩

/-- C3: for every enumeration below the guard's limit the emitted Java
artifact declares exactly N enum constants, in declaration order; the
constant of row i carries the item's name and ordinal i as its
constructor-style argument, followed by ',' for every constant except the
last, which gets ';'; and the constant block sits between the artifact's
header and the rest of its content. -/
theorem c3_java_constants (pkg : String) (fenum : ForeignEnumInfo) (i : Nat)
    (it : ForeignEnumItem)
    (hN : fenum.items.length < I32_MAX) (h : fenum.items.get? i = some it) :
    (javaConstLines fenum).length = fenum.items.length ∧
    (javaConstLines fenum).get? i = some
      ("    " ++ itemDocPart it ++ it.name ++ "(" ++ toString i ++ ")" ++
        (if i + 1 = fenum.items.length then ";" else ",") ++ "\n") ∧
    ∃ tail, javaEnumFileContent pkg fenum =
      javaHeader pkg fenum ++ String.join (javaConstLines fenum) ++ tail := by
  obtain ⟨hi, -⟩ := List.get?_eq_some.mp h
  refine ⟨?_, ?_, ?_⟩
  · unfold javaConstLines
    rw [List.length_map, enumFrom_length]
  · unfold javaConstLines
    rw [List.get?_map, enumFrom_get? 0 fenum.items i, h]
    have hiff : (i = fenum.items.length - 1) ↔ (i + 1 = fenum.items.length) := by omega
    simp only [Option.map_some', Nat.zero_add, hiff]
  · refine ⟨javaMiddle fenum ++ String.join (javaCaseFrags fenum) ++ javaFooter fenum, ?_⟩
    unfold javaEnumFileContent
    simp [String.append_assoc]

/-- C3 witness: the last Color constant is Blue with ordinal 2 and the
terminating semicolon. -/
theorem c3_java_constants_witness :
    (colorEnum.items.length < I32_MAX ∧
      colorEnum.items.get? 2 = some ⟨"Blue", "Blue", []⟩) ∧
    ((javaConstLines colorEnum).length = colorEnum.items.length ∧
      (javaConstLines colorEnum).get? 2 = some
        ("    " ++ itemDocPart ⟨"Blue", "Blue", []⟩ ++ "Blue" ++ "(" ++ toString (2 : Nat) ++
          ")" ++ (if 2 + 1 = colorEnum.items.length then ";" else ",") ++ "\n") ∧
      ∃ tail, javaEnumFileContent "com.example" colorEnum =
        javaHeader "com.example" colorEnum ++ String.join (javaConstLines colorEnum) ++ tail) := by
  have h1 : colorEnum.items.length < I32_MAX := by decide
  have h2 : colorEnum.items.get? 2 = some ⟨"Blue", "Blue", []⟩ := rfl
  exact ⟨⟨h1, h2⟩, c3_java_constants "com.example" colorEnum 2 ⟨"Blue", "Blue", []⟩ h1 h2⟩

/-- C4: the emitted Java fromInt decode is a total inverse of ordinal
assignment on [0, N−1]: dispatching the emitted switch at ordinal j returns
the constant declared with ordinal j (and the emitted case fragment for row j
names exactly that ordinal and constant); for any integer outside the
assigned ordinals the default arm throws a runtime error naming both the
offending value and the enumeration's foreign name. -/
theorem c4_fromInt_inverse (fenum : ForeignEnumInfo) (j : Nat) (x : Int)
    (it : ForeignEnumItem) :
    (fenum.items.get? j = some it →
      javaFromIntSem fenum ((j : Nat) : Int) = Except.ok it.name ∧
      (javaCaseFrags fenum).get? j = some
        ("\n            case " ++ toString j ++ ": return " ++ it.name ++ ";")) ∧
    ((x < 0 ∨ ((fenum.items.length : Nat) : Int) ≤ x) →
      javaFromIntSem fenum x =
        Except.error ("Invalid value for enum " ++ fenum.name ++ ": " ++ toString x)) := by
  constructor
  · intro h
    constructor
    · have hd := intDispatch_hit (fun a : ForeignEnumItem => a.name) fenum.items j it h
      unfold javaFromIntSem javaFromIntCases
      simp only [hd]
    · unfold javaCaseFrags
      rw [List.get?_map, enumFrom_get? 0 fenum.items j, h]
      simp only [Option.map_some', Nat.zero_add]
  · intro hx
    have hd := intDispatch_miss (fun a : ForeignEnumItem => a.name) fenum.items x hx
    unfold javaFromIntSem javaFromIntCases
    simp only [hd]

/-- C4 witness: for Color, decode(1) is Green and decode(5) throws naming
Color and 5. -/
theorem c4_fromInt_inverse_witness :
    colorEnum.items.get? 1 = some ⟨"Green", "Green", []⟩ ∧
    javaFromIntSem colorEnum ((1 : Nat) : Int) = Except.ok "Green" ∧
    javaFromIntSem colorEnum 5 =
      Except.error ("Invalid value for enum " ++ colorEnum.name ++ ": " ++
        toString (5 : Int)) := by
  have h : colorEnum.items.get? 1 = some ⟨"Green", "Green", []⟩ := rfl
  refine ⟨h, ?_, ?_⟩
  · exact ((c4_fromInt_inverse colorEnum 1 5 ⟨"Green", "Green", []⟩).1 h).1
  · exact (c4_fromInt_inverse colorEnum 1 5 ⟨"Green", "Green", []⟩).2 (by decide)

/-- C5: in the emitted native glue, decode after encode is the identity on
every native variant, and decode is exhaustive: for every variant v of the
enumeration there is an ordinal i in [0, N−1] with as_jint v = i and
from_jint i = v. -/
theorem c5_encode_decode_roundtrip (fenum : ForeignEnumInfo) (v : String)
    (hN : fenum.items.length < I32_MAX)
    (hv : v ∈ fenum.items.map (fun it => it.rust_name)) :
    ∃ i : Nat, i < fenum.items.length ∧
      as_jint (rust_glue fenum) v = some ((i : Nat) : Int) ∧
      from_jint (rust_glue fenum) ((i : Nat) : Int) = Except.ok v := by
  obtain ⟨j, a, hja, hfa, hfind⟩ :=
    findToArm (fun it : ForeignEnumItem => it.rust_name) v fenum.items 0 hv
  obtain ⟨hj, -⟩ := List.get?_eq_some.mp hja
  refine ⟨j, hj, ?_, ?_⟩
  · simp only [as_jint, rust_glue, hfind, Option.map_some', Nat.zero_add]
  · have hd := intDispatch_hit (fun it : ForeignEnumItem => it.rust_name) fenum.items j a hja
    simp only [from_jint, rust_glue, hd]
    exact congrArg Except.ok hfa

/-- C5 witness: the Blue variant of Color encodes to 2 and decodes back. -/
theorem c5_encode_decode_roundtrip_witness :
    colorEnum.items.length < I32_MAX ∧
    ("Blue" ∈ colorEnum.items.map (fun it => it.rust_name)) ∧
    ∃ i : Nat, i < colorEnum.items.length ∧
      as_jint (rust_glue colorEnum) "Blue" = some ((i : Nat) : Int) ∧
      from_jint (rust_glue colorEnum) ((i : Nat) : Int) = Except.ok "Blue" := by
  have h1 : colorEnum.items.length < I32_MAX := by decide
  have h2 : "Blue" ∈ colorEnum.items.map (fun it => it.rust_name) := by decide
  exact ⟨h1, h2, c5_encode_decode_roundtrip colorEnum "Blue" h1 h2⟩

/-- C6: for every table row i, the static-field name carried by row i's arm of
the emitted callback conversion is byte-identical to the constant name emitted
for row i of the Java artifact: both are exactly the item's foreign name. -/
theorem c6_callback_field_names (fenum : ForeignEnumInfo) (i : Nat) (it : ForeignEnumItem)
    (h : fenum.items.get? i = some it) :
    ((arms_match_fields_names fenum).get? i).map (fun a => a.2) = some it.name ∧
    (javaConstLines fenum).get? i = some
      ("    " ++ itemDocPart it ++ it.name ++ "(" ++ toString i ++ ")" ++
        (if i = fenum.items.length - 1 then ";" else ",") ++ "\n") := by
  constructor
  · unfold arms_match_fields_names
    rw [List.get?_map, h]
    rfl
  · unfold javaConstLines
    rw [List.get?_map, enumFrom_get? 0 fenum.items i, h]
    simp only [Option.map_some', Nat.zero_add]

/-- C6 witness: row 2 of Color carries field name Blue in the callback arm,
identical to the Java constant name. -/
theorem c6_callback_field_names_witness :
    colorEnum.items.get? 2 = some ⟨"Blue", "Blue", []⟩ ∧
    ((arms_match_fields_names colorEnum).get? 2).map (fun a => a.2) = some "Blue" := by
  have h : colorEnum.items.get? 2 = some ⟨"Blue", "Blue", []⟩ := rfl
  exact ⟨h, (c6_callback_field_names colorEnum 2 ⟨"Blue", "Blue", []⟩ h).1⟩

/-- C7: in the emitted native glue, for any integer outside the assigned
ordinals 0..N−1, from_jint's fallback arm raises the fatal native error whose
message reports both the received value and the enumeration's native name. -/
theorem c7_fallback_panic (fenum : ForeignEnumInfo) (x : Int)
    (hN : fenum.items.length < I32_MAX)
    (hx : x < 0 ∨ ((fenum.items.length : Nat) : Int) ≤ x) :
    from_jint (rust_glue fenum) x =
      Except.error (toString x ++ " not expected for " ++ fenum.name) := by
  have hd := intDispatch_miss (fun it : ForeignEnumItem => it.rust_name) fenum.items x hx
  simp only [from_jint, rust_glue, hd]

/-- C7 witness: native decode(3) for Color fails fatally naming 3 and Color. -/
theorem c7_fallback_panic_witness :
    colorEnum.items.length < I32_MAX ∧
    ((3 : Int) < 0 ∨ ((colorEnum.items.length : Nat) : Int) ≤ 3) ∧
    from_jint (rust_glue colorEnum) 3 =
      Except.error (toString (3 : Int) ++ " not expected for " ++ colorEnum.name) := by
  have h1 : colorEnum.items.length < I32_MAX := by decide
  have h2 : (3 : Int) < 0 ∨ ((colorEnum.items.length : Nat) : Int) ≤ 3 := by decide
  exact ⟨h1, h2, c7_fallback_panic colorEnum 3 h1 h2⟩
